import Mathlib

/-!
Verification of the Hugging Face text-to-audio service (src/main.py).

The file shallowly embeds the only original logic of the repository:

* `MyService.process` (src/main.py lines 82-120): parse the JSON
  descriptor, build the `Authorization` header, interpolate the prompt
  into a JSON payload by string formatting, issue one POST, inspect the
  response for a JSON error payload, and transcode the body to Ogg.
* the startup announce loop (src/main.py lines 148-161).

Machine-level collaborators are modelled faithfully at the level the
Python code observes them:

* `jsonParseChars` models Python `json.loads` (strict mode) on text;
* `decodeUtf8` models `bytes.decode("utf-8")`;
* `pyIndex` / `pyContains` model Python `x[key]` and `key in x` for the
  JSON values `json.loads` can return (dict, list, str, int/float, bool,
  None), including the `TypeError` raised by non-dict indexing and by
  membership tests on non-iterable values;
* the HTTP transport (`requests.post`) and the audio library (pydub
  `AudioSegment.from_file` / `export(format="ogg")`) are parameters of
  `process`: the upstream is a deterministic function from the request to
  the response bytes, the audio library a decoder returning an abstract
  segment and an encoder from segments to Ogg bytes.

`process` additionally returns the list of HTTP requests it issued, so
that claims about what is sent over the wire (payload shape, number of
POSTs) are statements about the returned trace.
-/

/-- JSON values as produced by Python `json.loads`.  Numbers keep their
source lexeme: no claim inspects numeric values, only their shape. -/
inductive Json where
  | null
  | bool (b : Bool)
  | num (lexeme : String)
  | str (s : String)
  | arr (items : List Json)
  | obj (fields : List (String × Json))

/-- The two Python exception kinds that the subscript and membership
operators can raise in `process` beside a successful result. -/
inductive PyExc where
  | keyError
  | typeError
deriving DecidableEq, Repr

/-- Failure outcomes of `process`.  The first two are the messages raised
explicitly by the code (lines 89 and 91); the others are exceptions that
escape `process` uncaught: a `UnicodeDecodeError` from decoding the
prompt (line 106), a `json.JSONDecodeError` from parsing the
interpolated payload (line 107), a `TypeError` from subscripting or
membership-testing a non-dict (lines 86-87 and 110-114), the upstream
error payload re-raised at line 114, and pydub's decode failure at
line 116. -/
inductive ProcError where
  | invalidDescriptor
  | missingField
  | uncaughtTypeError
  | promptUnicodeError
  | promptJsonError
  | upstreamError (v : Json)
  | couldntDecodeAudio

/-- Field types of the service contract; `process` tags its one output
with `AUDIO_OGG` (line 119). -/
inductive FieldDescriptionType where
  | APPLICATION_JSON
  | TEXT_PLAIN
  | AUDIO_OGG
deriving DecidableEq, Repr

/-- The `TaskData` value returned under the `"result"` key. -/
structure TaskData where
  data : List Nat
  type : FieldDescriptionType

/-- One outbound HTTP POST as issued by `text_to_audio_query`
(line 102): the target URL, the bearer token placed in the
`Authorization: Bearer <token>` header, and the JSON body. -/
structure UpstreamRequest where
  url : Json
  token : Json
  payload : Json

/-- Key lookup in a parsed JSON object, with Python `dict` semantics for
duplicate keys: the last occurrence wins. -/
def lookupKey (kvs : List (String × Json)) (k : String) : Option Json :=
  match kvs with
  | [] => none
  | (k2, v) :: rest =>
    match lookupKey rest k with
    | some v2 => some v2
    | none => if k2 == k then some v else none

/-- Does `hay` start with `pat`? -/
def startsWithList : List Char → List Char → Bool
  | [], _ => true
  | _ :: _, [] => false
  | p :: ps, c :: cs => p == c && startsWithList ps cs

/-- Substring test, Python `sub in s` on strings. -/
def containsSub (hay pat : List Char) : Bool :=
  match hay with
  | [] => startsWithList pat []
  | c :: rest => startsWithList pat (c :: rest) || containsSub rest pat

/-- Python subscript `x[k]` with a string key on a `json.loads` result:
dict lookup (raising `KeyError` when absent); every other JSON value
raises `TypeError`. -/
def pyIndex : Json → String → Except PyExc Json
  | Json.obj kvs, k =>
    match lookupKey kvs k with
    | some v => Except.ok v
    | none => Except.error PyExc.keyError
  | _, _ => Except.error PyExc.typeError

/-- Python membership `k in x` on a `json.loads` result: key test on a
dict, substring test on a string, element equality on a list; `int`,
`float`, `bool` and `None` are not iterable and raise `TypeError`. -/
def pyContains : Json → String → Except PyExc Bool
  | Json.obj kvs, k => Except.ok (lookupKey kvs k).isSome
  | Json.str s, k => Except.ok (containsSub s.data k.data)
  | Json.arr xs, k =>
    Except.ok (xs.any (fun x =>
      match x with
      | Json.str s => s == k
      | _ => false))
  | _, _ => Except.error PyExc.typeError

/-- JSON whitespace as skipped by Python `json.loads`. -/
def skipWs : List Char → List Char
  | [] => []
  | c :: cs =>
    if c = ' ' ∨ c = '\t' ∨ c = '\n' ∨ c = '\r' then skipWs cs
    else c :: cs

/-- Hexadecimal digit value, for `\uXXXX` escapes. -/
def hexVal (c : Char) : Option Nat :=
  if '0' ≤ c ∧ c ≤ '9' then some (c.toNat - '0'.toNat)
  else if 'a' ≤ c ∧ c ≤ 'f' then some (c.toNat - 'a'.toNat + 10)
  else if 'A' ≤ c ∧ c ≤ 'F' then some (c.toNat - 'A'.toNat + 10)
  else none

/-- The single-character JSON string escapes. -/
def simpleEsc (c : Char) : Option Char :=
  if c = '\x22' then some '\x22'
  else if c = '\x5c' then some '\x5c'
  else if c = '/' then some '/'
  else if c = 'b' then some '\x08'
  else if c = 'f' then some '\x0c'
  else if c = 'n' then some '\n'
  else if c = 'r' then some '\r'
  else if c = 't' then some '\t'
  else none

mutual

/-- Body of a JSON string literal after the opening quote, Python strict
mode: unescaped control characters below U+0020 are rejected; returns
the decoded characters and the input after the closing quote. -/
def parseStrAux : List Char → Option (List Char × List Char)
  | [] => none
  | c :: cs =>
    if c = '\x22' then some ([], cs)
    else if c = '\x5c' then parseEsc cs
    else if c.toNat < 0x20 then none
    else
      match parseStrAux cs with
      | some (s, r) => some (c :: s, r)
      | none => none

/-- A JSON string escape after the backslash.  A `\uXXXX` escape decodes
the given code unit (lone surrogates, which Lean `Char` cannot hold, do
not occur in the inputs any claim touches). -/
def parseEsc : List Char → Option (List Char × List Char)
  | 'u' :: h1 :: h2 :: h3 :: h4 :: cs =>
    match hexVal h1, hexVal h2, hexVal h3, hexVal h4 with
    | some a, some b, some c, some d =>
      match parseStrAux cs with
      | some (s, r) => some (Char.ofNat (((a * 16 + b) * 16 + c) * 16 + d) :: s, r)
      | none => none
    | _, _, _, _ => none
  | e :: cs =>
    match simpleEsc e with
    | some ec =>
      match parseStrAux cs with
      | some (s, r) => some (ec :: s, r)
      | none => none
    | none => none
  | [] => none

end

/-- Leading decimal digits of the input. -/
def digits : List Char → List Char × List Char
  | [] => ([], [])
  | c :: cs =>
    if c.isDigit then
      let r := digits cs
      (c :: r.1, r.2)
    else ([], c :: cs)

/-- Integer part of a JSON number: `0`, or a nonzero digit followed by
digits (leading zeros rejected, as in Python json). -/
def parseIntPart (cs : List Char) : Option (List Char × List Char) :=
  match cs with
  | [] => none
  | c :: rest =>
    if c = '0' then some ([c], rest)
    else if c.isDigit then
      let r := digits rest
      some (c :: r.1, r.2)
    else none

/-- Optional fraction part `.digits`. -/
def parseFrac (cs : List Char) : List Char × List Char :=
  match cs with
  | [] => ([], [])
  | c :: rest =>
    if c = '.' then
      match digits rest with
      | (d :: ds, rem) => ('.' :: d :: ds, rem)
      | ([], _) => ([], cs)
    else ([], cs)

/-- Optional exponent part `e[+-]digits`. -/
def parseExp (cs : List Char) : List Char × List Char :=
  match cs with
  | [] => ([], [])
  | c :: rest =>
    if c = 'e' ∨ c = 'E' then
      match rest with
      | [] => ([], cs)
      | s :: rest2 =>
        if s = '+' ∨ s = '-' then
          match digits rest2 with
          | (d :: ds, rem) => (c :: s :: d :: ds, rem)
          | ([], _) => ([], cs)
        else
          match digits rest with
          | (d :: ds, rem) => (c :: d :: ds, rem)
          | ([], _) => ([], cs)
    else ([], cs)

/-- A JSON number token, including the `NaN`/`Infinity` extensions that
Python `json.loads` accepts by default.  Stores the lexeme. -/
def parseNum (cs : List Char) : Option (Json × List Char) :=
  match cs with
  | 'N' :: 'a' :: 'N' :: rest => some (Json.num "NaN", rest)
  | 'I' :: 'n' :: 'f' :: 'i' :: 'n' :: 'i' :: 't' :: 'y' :: rest =>
    some (Json.num "Infinity", rest)
  | '-' :: 'I' :: 'n' :: 'f' :: 'i' :: 'n' :: 'i' :: 't' :: 'y' :: rest =>
    some (Json.num "-Infinity", rest)
  | '-' :: rest =>
    match parseIntPart rest with
    | some (ip, rem) =>
      let f := parseFrac rem
      let e := parseExp f.2
      some (Json.num (String.mk ('-' :: (ip ++ f.1 ++ e.1))), e.2)
    | none => none
  | _ =>
    match parseIntPart cs with
    | some (ip, rem) =>
      let f := parseFrac rem
      let e := parseExp f.2
      some (Json.num (String.mk (ip ++ f.1 ++ e.1)), e.2)
    | none => none

mutual

/-- One JSON value, recursive-descent with fuel (the fuel only decreases
when nesting into containers, so any fuel above the nesting depth gives
the same answer as Python `json.loads`). -/
def parseVal : Nat → List Char → Option (Json × List Char)
  | 0, _ => none
  | fuel + 1, cs =>
    match skipWs cs with
    | [] => none
    | c :: rest =>
      if c = 'n' then
        match rest with
        | 'u' :: 'l' :: 'l' :: r => some (Json.null, r)
        | _ => none
      else if c = 't' then
        match rest with
        | 'r' :: 'u' :: 'e' :: r => some (Json.bool true, r)
        | _ => none
      else if c = 'f' then
        match rest with
        | 'a' :: 'l' :: 's' :: 'e' :: r => some (Json.bool false, r)
        | _ => none
      else if c = '\x22' then
        match parseStrAux rest with
        | some (s, r) => some (Json.str (String.mk s), r)
        | none => none
      else if c = '[' then
        match skipWs rest with
        | [] => none
        | c2 :: rest2 =>
          if c2 = ']' then some (Json.arr [], rest2)
          else
            match parseVal fuel (c2 :: rest2) with
            | some (v, r) => parseArrRest fuel [v] r
            | none => none
      else if c = '\x7b' then
        match skipWs rest with
        | [] => none
        | c2 :: rest2 =>
          if c2 = '\x7d' then some (Json.obj [], rest2)
          else parseObjPair fuel [] (c2 :: rest2)
      else parseNum (c :: rest)

/-- Remaining elements of a JSON array after the first. -/
def parseArrRest : Nat → List Json → List Char → Option (Json × List Char)
  | 0, _, _ => none
  | fuel + 1, acc, cs =>
    match skipWs cs with
    | [] => none
    | c :: rest =>
      if c = ']' then some (Json.arr acc.reverse, rest)
      else if c = ',' then
        match parseVal fuel rest with
        | some (v, r) => parseArrRest fuel (v :: acc) r
        | none => none
      else none

/-- `key : value` pairs of a JSON object. -/
def parseObjPair : Nat → List (String × Json) → List Char → Option (Json × List Char)
  | 0, _, _ => none
  | fuel + 1, acc, cs =>
    match skipWs cs with
    | [] => none
    | c :: rest =>
      if c = '\x22' then
        match parseStrAux rest with
        | some (key, rest2) =>
          match skipWs rest2 with
          | [] => none
          | c2 :: rest3 =>
            if c2 = ':' then
              match parseVal fuel rest3 with
              | some (v, rest4) =>
                match skipWs rest4 with
                | [] => none
                | c3 :: rest5 =>
                  if c3 = '\x7d' then
                    some (Json.obj (((String.mk key, v) :: acc).reverse), rest5)
                  else if c3 = ',' then parseObjPair fuel ((String.mk key, v) :: acc) rest5
                  else none
              | none => none
            else none
        | none => none
      else none

end

/-- Python `json.loads` on text: one JSON document, with nothing but
whitespace after it. -/
def jsonParseChars (cs : List Char) : Option Json :=
  match parseVal (cs.length + 1) cs with
  | some (j, rest) =>
    match skipWs rest with
    | [] => some j
    | _ :: _ => none
  | none => none

/-- Validity of the continuation bytes of a multi-byte UTF-8 sequence. -/
def isCont (b : Nat) : Bool := 0x80 ≤ b && b ≤ 0xBF

/-- Constraint on the second byte of a 3- or 4-byte UTF-8 sequence
(rules out overlong encodings, surrogates, and code points above
U+10FFFF). -/
def validSecond (b b1 : Nat) : Bool :=
  if b = 0xE0 then 0xA0 ≤ b1 && b1 ≤ 0xBF
  else if b = 0xED then 0x80 ≤ b1 && b1 ≤ 0x9F
  else if b = 0xF0 then 0x90 ≤ b1 && b1 ≤ 0xBF
  else if b = 0xF4 then 0x80 ≤ b1 && b1 ≤ 0x8F
  else isCont b1

/-- Fuel-indexed strict UTF-8 decoder. -/
def decodeUtf8Fuel : Nat → List Nat → Option (List Char)
  | _, [] => some []
  | 0, _ :: _ => none
  | fuel + 1, b :: bs =>
    if b ≤ 0x7F then
      match decodeUtf8Fuel fuel bs with
      | some cs => some (Char.ofNat b :: cs)
      | none => none
    else if 0xC2 ≤ b ∧ b ≤ 0xDF then
      match bs with
      | b1 :: bs1 =>
        if isCont b1 then
          match decodeUtf8Fuel fuel bs1 with
          | some cs => some (Char.ofNat ((b - 0xC0) * 0x40 + (b1 - 0x80)) :: cs)
          | none => none
        else none
      | [] => none
    else if 0xE0 ≤ b ∧ b ≤ 0xEF then
      match bs with
      | b1 :: b2 :: bs1 =>
        if validSecond b b1 && isCont b2 then
          match decodeUtf8Fuel fuel bs1 with
          | some cs =>
            some (Char.ofNat ((b - 0xE0) * 0x1000 + (b1 - 0x80) * 0x40 + (b2 - 0x80)) :: cs)
          | none => none
        else none
      | _ => none
    else if 0xF0 ≤ b ∧ b ≤ 0xF4 then
      match bs with
      | b1 :: b2 :: b3 :: bs1 =>
        if validSecond b b1 && isCont b2 && isCont b3 then
          match decodeUtf8Fuel fuel bs1 with
          | some cs =>
            some (Char.ofNat ((b - 0xF0) * 0x40000 + (b1 - 0x80) * 0x1000
              + (b2 - 0x80) * 0x40 + (b3 - 0x80)) :: cs)
          | none => none
        else none
      | _ => none
    else none

/-- Python `bytes.decode("utf-8")` (strict): the decoded characters, or
`none` on a `UnicodeDecodeError`. -/
def decodeUtf8 (bs : List Nat) : Option (List Char) :=
  decodeUtf8Fuel bs.length bs

/-- The string-interpolated payload text built at line 106:
the f-string produces the literal text of a braced object with a
quoted, UNescaped copy of the prompt inside. -/
def interpChars (t : List Char) : List Char :=
  '\x7b' :: ' ' :: '\x22' :: 'i' :: 'n' :: 'p' :: 'u' :: 't' :: 's' :: '\x22'
    :: ' ' :: ':' :: ' ' :: '\x22' :: (t ++ '\x22' :: ' ' :: '\x7d' :: [])

/-- Lines 94-99 and 110-114: if the response body is valid JSON, test
`error in json_data` and on success re-raise `json_data[error]`; the
membership test and the subscript each raise `TypeError` on non-dict
JSON values. `none` means execution falls through to audio decoding. -/
def checkUpstreamJson (resultData : List Nat) : Option ProcError :=
  match decodeUtf8 resultData with
  | none => none
  | some cs =>
    match jsonParseChars cs with
    | none => none
    | some jd =>
      match pyContains jd "error" with
      | Except.error _ => some ProcError.uncaughtTypeError
      | Except.ok true =>
        match pyIndex jd "error" with
        | Except.error _ => some ProcError.uncaughtTypeError
        | Except.ok v => some (ProcError.upstreamError v)
      | Except.ok false => none

/-- `MyService.process` (lines 82-120).  `upstream` is the deterministic
HTTP collaborator: given the `api_url` value, the token placed in the
`Authorization: Bearer <token>` header, and the JSON body, it returns
`response.content`.  `audioFromFile` and `exportOgg` are pydub's
container probe and Ogg encoder.  Returns the outcome together with the
list of POSTs issued. -/
def process {α : Type} (upstream : Json → Json → Json → List Nat)
    (audioFromFile : List Nat → Option α) (exportOgg : α → List Nat)
    (jsonDescription inputText : List Nat) :
    Except ProcError (List (String × TaskData)) × List UpstreamRequest :=
  match decodeUtf8 jsonDescription with
  | none => (Except.error ProcError.invalidDescriptor, [])
  | some descChars =>
    match jsonParseChars descChars with
    | none => (Except.error ProcError.invalidDescriptor, [])
    | some jd =>
      match pyIndex jd "api_token" with
      | Except.error PyExc.keyError => (Except.error ProcError.missingField, [])
      | Except.error PyExc.typeError => (Except.error ProcError.uncaughtTypeError, [])
      | Except.ok apiToken =>
        match pyIndex jd "api_url" with
        | Except.error PyExc.keyError => (Except.error ProcError.missingField, [])
        | Except.error PyExc.typeError => (Except.error ProcError.uncaughtTypeError, [])
        | Except.ok apiUrl =>
          match decodeUtf8 inputText with
          | none => (Except.error ProcError.promptUnicodeError, [])
          | some promptChars =>
            match jsonParseChars (interpChars promptChars) with
            | none => (Except.error ProcError.promptJsonError, [])
            | some payload =>
              let req : UpstreamRequest := ⟨apiUrl, apiToken, payload⟩
              let resultData := upstream apiUrl apiToken payload
              match checkUpstreamJson resultData with
              | some e => (Except.error e, [req])
              | none =>
                match audioFromFile resultData with
                | none => (Except.error ProcError.couldntDecodeAudio, [req])
                | some seg =>
                  (Except.ok [("result", ⟨exportOgg seg, FieldDescriptionType.AUDIO_OGG⟩)], [req])

/-- State of the announce loop: whether the current URL was announced,
the remaining shared retry budget, and the counts of announce calls and
of `time.sleep` calls performed so far. -/
structure AnnounceResult where
  announced : Bool
  retriesLeft : Nat
  attempts : Nat
  sleeps : Nat
deriving DecidableEq, Repr

/-- The inner `while not announced and retries > 0` loop (lines
152-161).  `svc url n` is the result of `announce_service` on the n-th
call overall; each failed call sleeps once. -/
def announceWhile (svc : String → Nat → Bool) (url : String) :
    Nat → Nat → Nat → AnnounceResult
  | 0, attempts, sleeps => ⟨false, 0, attempts, sleeps⟩
  | fuel + 1, attempts, sleeps =>
    if svc url attempts then ⟨true, fuel, attempts + 1, sleeps⟩
    else announceWhile svc url fuel (attempts + 1) (sleeps + 1)

/-- The `for engine_url in settings.engine_urls` loop: the retry budget
is shared across URLs. -/
def announceAll (svc : String → Nat → Bool) :
    List String → AnnounceResult → AnnounceResult
  | [], st => st
  | url :: rest, st =>
    announceAll svc rest (announceWhile svc url st.retriesLeft st.attempts st.sleeps)

/-- The `announce` coroutine (lines 148-161), with
`retries = settings.engine_announce_retries` initialised once. -/
def announce (svc : String → Nat → Bool) (engineUrls : List String)
    (engineAnnounceRetries : Nat) : AnnounceResult :=
  announceAll svc engineUrls ⟨false, engineAnnounceRetries, 0, 0⟩

/-- ASCII text as a byte buffer, for concrete test inputs. -/
def asciiBytes (s : String) : List Nat := s.data.map Char.toNat

/-- Upstream stub returning a fixed body. -/
def upstreamOf (body : String) : Json → Json → Json → List Nat :=
  fun _ _ _ => asciiBytes body

/-- Audio probe stub that recognises nothing. -/
def audioNone : List Nat → Option Unit := fun _ => none

/-- Audio probe stub that recognises everything. -/
def audioAll : List Nat → Option Unit := fun _ => some ()

/-- Ogg encoder stub. -/
def oggStub : Unit → List Nat := fun _ => [79, 103, 103, 83]

/-- A well-formed descriptor: api_token "t", api_url "u". -/
def descOk : List Nat := asciiBytes "\x7b\"api_token\":\"t\",\"api_url\":\"u\"\x7d"

/-- A benign prompt. -/
def promptHi : List Nat := asciiBytes "hi"

/-- A prompt character the f-string interpolation keeps intact: not a
double quote, not a backslash, not a control character. -/
def okChar (c : Char) : Prop := c ≠ '\x22' ∧ c ≠ '\x5c' ∧ 0x20 ≤ c.toNat

/-- A string-literal body free of quotes, backslashes and control
characters parses to itself, consuming exactly up to the closing
quote. -/
theorem strAux_free (t rest : List Char) (h : ∀ c ∈ t, okChar c) :
    parseStrAux (t ++ '\x22' :: rest) = some (t, rest) := by
  induction t with
  | nil => simp [parseStrAux]
  | cons c t ih =>
    obtain ⟨h1, h2, h3⟩ := h c (by simp)
    rw [List.cons_append, parseStrAux]
    rw [if_neg h1, if_neg h2, if_neg (by omega)]
    rw [ih (fun x hx => h x (List.mem_cons_of_mem _ hx))]

instance (c : Char) : Decidable (okChar c) :=
  inferInstanceAs (Decidable (c ≠ '\x22' ∧ c ≠ '\x5c' ∧ 0x20 ≤ c.toNat))

/-- With any spare fuel, the interpolated payload text parses to the
one-field object carrying the prompt verbatim, provided every prompt
character survives interpolation. -/
theorem parseVal_interp (f : Nat) (pc : List Char) (h : ∀ c ∈ pc, okChar c) :
    parseVal (f + 3) (interpChars pc)
      = some (Json.obj [("inputs", Json.str (String.mk pc))], []) := by
  have hstr : parseStrAux (pc ++ '\x22' :: ' ' :: '\x7d' :: [])
      = some (pc, ' ' :: '\x7d' :: []) := strAux_free pc _ h
  have hkey : parseStrAux ('i' :: 'n' :: 'p' :: 'u' :: 't' :: 's' :: '\x22'
        :: ' ' :: ':' :: ' ' :: '\x22' :: (pc ++ '\x22' :: ' ' :: '\x7d' :: []))
      = some (['i', 'n', 'p', 'u', 't', 's'],
          ' ' :: ':' :: ' ' :: '\x22' :: (pc ++ '\x22' :: ' ' :: '\x7d' :: [])) := by
    have h2 := strAux_free ['i', 'n', 'p', 'u', 't', 's']
      (' ' :: ':' :: ' ' :: '\x22' :: (pc ++ '\x22' :: ' ' :: '\x7d' :: [])) (by decide)
    simpa using h2
  show parseVal (((f + 1) + 1) + 1) (interpChars pc)
      = some (Json.obj [("inputs", Json.str (String.mk pc))], [])
  simp [interpChars, parseVal, parseObjPair, skipWs, hkey, hstr]

/-- Line 107 on an escape-free prompt: `json.loads` of the interpolated
text yields exactly the object the wire protocol demands. -/
theorem interp_ok (pc : List Char) (h : ∀ c ∈ pc, okChar c) :
    jsonParseChars (interpChars pc)
      = some (Json.obj [("inputs", Json.str (String.mk pc))]) := by
  unfold jsonParseChars
  have hlen : (interpChars pc).length + 1 = (pc.length + 15) + 3 := by
    simp [interpChars]
  rw [hlen, parseVal_interp (pc.length + 15) pc h]
  simp [skipWs]

/-- Claim C1 (counterexample): a prompt containing a double quote breaks
the string-interpolated payload: `json.loads` rejects it at line 107 and
nothing at all is sent upstream, so no JSON body equal to the
single-field object is sent for this decodable prompt. -/
theorem c1_payload_counterexample :
    process (upstreamOf "x") audioNone oggStub descOk (asciiBytes "a\"b")
      = (Except.error ProcError.promptJsonError, []) := rfl

/-- Claim C1 (amended): for every prompt that decodes as UTF-8 text with
no double quote, no backslash and no control character, `process` sends
exactly the JSON body with the single key inputs carrying the prompt
verbatim. -/
theorem c1_payload_escape_free {α : Type} (upstream : Json → Json → Json → List Nat)
    (audioFromFile : List Nat → Option α) (exportOgg : α → List Nat)
    (d p : List Nat) (dc pc : List Char) (jd tok url : Json)
    (hdec : decodeUtf8 d = some dc)
    (hparse : jsonParseChars dc = some jd)
    (htok : pyIndex jd "api_token" = Except.ok tok)
    (hurl : pyIndex jd "api_url" = Except.ok url)
    (hpdec : decodeUtf8 p = some pc)
    (hok : ∀ c ∈ pc, okChar c) :
    (process upstream audioFromFile exportOgg d p).2
      = [⟨url, tok, Json.obj [("inputs", Json.str (String.mk pc))]⟩] := by
  simp only [process, hdec, hparse, htok, hurl, hpdec, interp_ok pc hok]
  cases hc : checkUpstreamJson (upstream url tok (Json.obj [("inputs", Json.str (String.mk pc))])) with
  | some e => simp [hc]
  | none =>
    cases ha : audioFromFile (upstream url tok (Json.obj [("inputs", Json.str (String.mk pc))])) with
    | none => simp [hc, ha]
    | some seg => simp [hc, ha]

/-- Claim C1 (witness). -/
theorem c1_payload_witness :
    (process (upstreamOf "x") audioNone oggStub descOk promptHi).2
      = [⟨Json.str "u", Json.str "t", Json.obj [("inputs", Json.str "hi")]⟩] :=
  c1_payload_escape_free (upstreamOf "x") audioNone oggStub descOk promptHi
    _ ['h', 'i'] (Json.obj [("api_token", Json.str "t"), ("api_url", Json.str "u")])
    (Json.str "t") (Json.str "u") rfl rfl rfl rfl rfl (by decide)

/-- Claim C2: a JSON response object carrying an error key makes
`process` abort with exactly that value as the exception payload, with
no audio artifact returned. -/
theorem c2_upstream_error {α : Type} (upstream : Json → Json → Json → List Nat)
    (audioFromFile : List Nat → Option α) (exportOgg : α → List Nat)
    (d p : List Nat) (dc pc rc : List Char) (jd tok url payload v : Json)
    (kvs : List (String × Json))
    (hdec : decodeUtf8 d = some dc)
    (hparse : jsonParseChars dc = some jd)
    (htok : pyIndex jd "api_token" = Except.ok tok)
    (hurl : pyIndex jd "api_url" = Except.ok url)
    (hpdec : decodeUtf8 p = some pc)
    (hpay : jsonParseChars (interpChars pc) = some payload)
    (hrdec : decodeUtf8 (upstream url tok payload) = some rc)
    (hrparse : jsonParseChars rc = some (Json.obj kvs))
    (herr : lookupKey kvs "error" = some v) :
    process upstream audioFromFile exportOgg d p
      = (Except.error (ProcError.upstreamError v), [⟨url, tok, payload⟩]) := by
  simp only [process, hdec, hparse, htok, hurl, hpdec, hpay]
  simp [checkUpstreamJson, hrdec, hrparse, pyContains, pyIndex, herr]

/-- Claim C2 (witness). -/
theorem c2_upstream_error_witness :
    process (upstreamOf "\x7b\"error\":\"model loading\"\x7d") audioNone oggStub descOk promptHi
      = (Except.error (ProcError.upstreamError (Json.str "model loading")),
         [⟨Json.str "u", Json.str "t", Json.obj [("inputs", Json.str "hi")]⟩]) :=
  c2_upstream_error (upstreamOf "\x7b\"error\":\"model loading\"\x7d") audioNone oggStub
    descOk promptHi _ ['h', 'i'] _
    (Json.obj [("api_token", Json.str "t"), ("api_url", Json.str "u")])
    (Json.str "t") (Json.str "u") (Json.obj [("inputs", Json.str "hi")])
    (Json.str "model loading") [("error", Json.str "model loading")]
    rfl rfl rfl rfl rfl rfl rfl rfl rfl

/-- Claim C3 (counterexample): a descriptor that is well-formed JSON but
not an object, here the empty array, misses both required keys yet fails
with an uncaught `TypeError` rather than the MissingField error. -/
theorem c3_descriptor_counterexample :
    process (upstreamOf "x") audioNone oggStub (asciiBytes "[]") promptHi
      = (Except.error ProcError.uncaughtTypeError, [])
      ∧ ProcError.uncaughtTypeError ≠ ProcError.missingField :=
  ⟨rfl, by simp⟩

/-- Claim C3 (amended): a malformed-JSON descriptor fails with
InvalidDescriptor, and a well-formed JSON object descriptor missing
api_token or api_url fails with MissingField; both happen with no
request issued. -/
theorem c3_descriptor_errors {α : Type} (upstream : Json → Json → Json → List Nat)
    (audioFromFile : List Nat → Option α) (exportOgg : α → List Nat) :
    (∀ (d p : List Nat) (dc : List Char), decodeUtf8 d = some dc →
      jsonParseChars dc = none →
      process upstream audioFromFile exportOgg d p
        = (Except.error ProcError.invalidDescriptor, []))
    ∧ (∀ (d p : List Nat) (dc : List Char) (kvs : List (String × Json)),
      decodeUtf8 d = some dc →
      jsonParseChars dc = some (Json.obj kvs) →
      (lookupKey kvs "api_token" = none ∨ lookupKey kvs "api_url" = none) →
      process upstream audioFromFile exportOgg d p
        = (Except.error ProcError.missingField, [])) := by
  constructor
  · intro d p dc hdec hparse
    simp [process, hdec, hparse]
  · intro d p dc kvs hdec hparse hmiss
    rcases hmiss with hm | hm
    · simp [process, hdec, hparse, pyIndex, hm]
    · cases ht : lookupKey kvs "api_token" with
      | none => simp [process, hdec, hparse, pyIndex, ht]
      | some tok => simp [process, hdec, hparse, pyIndex, ht, hm]

/-- Claim C3 (witness): a non-JSON descriptor and a descriptor missing
api_url. -/
theorem c3_descriptor_errors_witness :
    process (upstreamOf "x") audioNone oggStub (asciiBytes "not json") promptHi
      = (Except.error ProcError.invalidDescriptor, [])
    ∧ process (upstreamOf "x") audioNone oggStub (asciiBytes "\x7b\"api_token\":\"t\"\x7d") promptHi
      = (Except.error ProcError.missingField, []) :=
  ⟨(c3_descriptor_errors (upstreamOf "x") audioNone oggStub).1
      (asciiBytes "not json") promptHi ['n', 'o', 't', ' ', 'j', 's', 'o', 'n'] rfl rfl,
   (c3_descriptor_errors (upstreamOf "x") audioNone oggStub).2
      (asciiBytes "\x7b\"api_token\":\"t\"\x7d") promptHi _
      [("api_token", Json.str "t")] rfl rfl (Or.inr rfl)⟩

/-- Claim C4: when every stage succeeds and the body decodes as audio,
`process` returns exactly one artifact, keyed result, whose bytes are
the Ogg export of the decoded segment, tagged AUDIO_OGG. -/
theorem c4_ogg_result {α : Type} (upstream : Json → Json → Json → List Nat)
    (audioFromFile : List Nat → Option α) (exportOgg : α → List Nat)
    (d p : List Nat) (dc pc : List Char) (jd tok url payload : Json) (seg : α)
    (hdec : decodeUtf8 d = some dc)
    (hparse : jsonParseChars dc = some jd)
    (htok : pyIndex jd "api_token" = Except.ok tok)
    (hurl : pyIndex jd "api_url" = Except.ok url)
    (hpdec : decodeUtf8 p = some pc)
    (hpay : jsonParseChars (interpChars pc) = some payload)
    (hchk : checkUpstreamJson (upstream url tok payload) = none)
    (haud : audioFromFile (upstream url tok payload) = some seg) :
    process upstream audioFromFile exportOgg d p
      = (Except.ok [("result", ⟨exportOgg seg, FieldDescriptionType.AUDIO_OGG⟩)],
         [⟨url, tok, payload⟩]) := by
  simp [process, hdec, hparse, htok, hurl, hpdec, hpay, hchk, haud]

/-- Claim C4 (witness). -/
theorem c4_ogg_result_witness :
    process (upstreamOf "RIFFdata") audioAll oggStub descOk promptHi
      = (Except.ok [("result", ⟨[79, 103, 103, 83], FieldDescriptionType.AUDIO_OGG⟩)],
         [⟨Json.str "u", Json.str "t", Json.obj [("inputs", Json.str "hi")]⟩]) :=
  c4_ogg_result (upstreamOf "RIFFdata") audioAll oggStub descOk promptHi
    _ ['h', 'i'] (Json.obj [("api_token", Json.str "t"), ("api_url", Json.str "u")])
    (Json.str "t") (Json.str "u") (Json.obj [("inputs", Json.str "hi")]) ()
    rfl rfl rfl rfl rfl rfl rfl rfl

/-- Claim C5 (counterexample): the body 5 is JSON without an error key
and is not decodable audio, yet `process` fails with an uncaught
`TypeError` from the membership test, not with the audio-decode
failure. -/
theorem c5_unsupported_audio_counterexample :
    (process (upstreamOf "5") audioNone oggStub descOk promptHi).1
      = Except.error ProcError.uncaughtTypeError
    ∧ (process (upstreamOf "5") audioNone oggStub descOk promptHi).1
      ≠ Except.error ProcError.couldntDecodeAudio := by
  refine ⟨rfl, ?_⟩
  rw [show (process (upstreamOf "5") audioNone oggStub descOk promptHi).1
      = Except.error ProcError.uncaughtTypeError from rfl]
  simp

/-- Claim C5 (amended): a body that is not valid JSON, or whose JSON
value is an object, array or string in which the membership test for
error is false, and which the audio probe rejects, makes `process` fail
with the audio-decode (UnsupportedAudioFormat) error. -/
theorem c5_unsupported_audio {α : Type} (upstream : Json → Json → Json → List Nat)
    (audioFromFile : List Nat → Option α) (exportOgg : α → List Nat)
    (d p : List Nat) (dc pc : List Char) (jd tok url payload : Json)
    (hdec : decodeUtf8 d = some dc)
    (hparse : jsonParseChars dc = some jd)
    (htok : pyIndex jd "api_token" = Except.ok tok)
    (hurl : pyIndex jd "api_url" = Except.ok url)
    (hpdec : decodeUtf8 p = some pc)
    (hpay : jsonParseChars (interpChars pc) = some payload)
    (hjson : decodeUtf8 (upstream url tok payload) = none
      ∨ (∃ rc, decodeUtf8 (upstream url tok payload) = some rc ∧ jsonParseChars rc = none)
      ∨ (∃ rc j, decodeUtf8 (upstream url tok payload) = some rc
          ∧ jsonParseChars rc = some j ∧ pyContains j "error" = Except.ok false))
    (haud : audioFromFile (upstream url tok payload) = none) :
    process upstream audioFromFile exportOgg d p
      = (Except.error ProcError.couldntDecodeAudio, [⟨url, tok, payload⟩]) := by
  have hchk : checkUpstreamJson (upstream url tok payload) = none := by
    rcases hjson with hj | ⟨rc, hj1, hj2⟩ | ⟨rc, j, hj1, hj2, hj3⟩
    · simp [checkUpstreamJson, hj]
    · simp [checkUpstreamJson, hj1, hj2]
    · simp [checkUpstreamJson, hj1, hj2, hj3]
  simp [process, hdec, hparse, htok, hurl, hpdec, hpay, hchk, haud]

/-- Claim C5 (witness). -/
theorem c5_unsupported_audio_witness :
    process (upstreamOf "notjson") audioNone oggStub descOk promptHi
      = (Except.error ProcError.couldntDecodeAudio,
         [⟨Json.str "u", Json.str "t", Json.obj [("inputs", Json.str "hi")]⟩]) :=
  c5_unsupported_audio (upstreamOf "notjson") audioNone oggStub descOk promptHi
    _ ['h', 'i'] (Json.obj [("api_token", Json.str "t"), ("api_url", Json.str "u")])
    (Json.str "t") (Json.str "u") (Json.obj [("inputs", Json.str "hi")])
    rfl rfl rfl rfl rfl rfl
    (Or.inr (Or.inl ⟨['n', 'o', 't', 'j', 's', 'o', 'n'], rfl, rfl⟩)) rfl

/-- Claim C6: `process` issues at most one POST in every run, and
exactly one once the descriptor and prompt stages have all succeeded;
an error result never carries an artifact. -/
theorem c6_single_post {α : Type} (upstream : Json → Json → Json → List Nat)
    (audioFromFile : List Nat → Option α) (exportOgg : α → List Nat)
    (d p : List Nat) :
    (process upstream audioFromFile exportOgg d p).2.length ≤ 1
    ∧ (∀ (dc pc : List Char) (jd tok url payload : Json),
      decodeUtf8 d = some dc → jsonParseChars dc = some jd →
      pyIndex jd "api_token" = Except.ok tok →
      pyIndex jd "api_url" = Except.ok url →
      decodeUtf8 p = some pc →
      jsonParseChars (interpChars pc) = some payload →
      (process upstream audioFromFile exportOgg d p).2 = [⟨url, tok, payload⟩]) := by
  constructor
  · cases hdec : decodeUtf8 d with
    | none => simp [process, hdec]
    | some dc =>
      cases hparse : jsonParseChars dc with
      | none => simp [process, hdec, hparse]
      | some jd =>
        cases htok : pyIndex jd "api_token" with
        | error e => cases e <;> simp [process, hdec, hparse, htok]
        | ok tok =>
          cases hurl : pyIndex jd "api_url" with
          | error e => cases e <;> simp [process, hdec, hparse, htok, hurl]
          | ok url =>
            cases hpdec : decodeUtf8 p with
            | none => simp [process, hdec, hparse, htok, hurl, hpdec]
            | some pc =>
              cases hpay : jsonParseChars (interpChars pc) with
              | none => simp [process, hdec, hparse, htok, hurl, hpdec, hpay]
              | some payload =>
                cases hchk : checkUpstreamJson (upstream url tok payload) with
                | some e =>
                  simp [process, hdec, hparse, htok, hurl, hpdec, hpay, hchk]
                | none =>
                  cases haud : audioFromFile (upstream url tok payload) with
                  | none =>
                    simp [process, hdec, hparse, htok, hurl, hpdec, hpay, hchk, haud]
                  | some seg =>
                    simp [process, hdec, hparse, htok, hurl, hpdec, hpay, hchk, haud]
  · intro dc pc jd tok url payload hdec hparse htok hurl hpdec hpay
    simp only [process, hdec, hparse, htok, hurl, hpdec, hpay]
    cases hc : checkUpstreamJson (upstream url tok payload) with
    | some e => simp [hc]
    | none =>
      cases ha : audioFromFile (upstream url tok payload) with
      | none => simp [hc, ha]
      | some seg => simp [hc, ha]

/-- Claim C6 (witness). -/
theorem c6_single_post_witness :
    (process (upstreamOf "x") audioNone oggStub descOk promptHi).2.length ≤ 1
    ∧ (process (upstreamOf "x") audioNone oggStub descOk promptHi).2
      = [⟨Json.str "u", Json.str "t", Json.obj [("inputs", Json.str "hi")]⟩] :=
  ⟨(c6_single_post (upstreamOf "x") audioNone oggStub descOk promptHi).1,
   (c6_single_post (upstreamOf "x") audioNone oggStub descOk promptHi).2
     _ ['h', 'i'] (Json.obj [("api_token", Json.str "t"), ("api_url", Json.str "u")])
     (Json.str "t") (Json.str "u") (Json.obj [("inputs", Json.str "hi")])
     rfl rfl rfl rfl rfl rfl⟩

/-- Claim C7: `process` is deterministic: byte-identical descriptor and
prompt inputs against the same deterministic upstream and audio library
give identical results, including the Ogg bytes. -/
theorem c7_deterministic {α : Type} (upstream : Json → Json → Json → List Nat)
    (audioFromFile : List Nat → Option α) (exportOgg : α → List Nat)
    (d1 p1 d2 p2 : List Nat) (hd : d1 = d2) (hp : p1 = p2) :
    process upstream audioFromFile exportOgg d1 p1
      = process upstream audioFromFile exportOgg d2 p2 := by
  rw [hd, hp]

/-- Claim C7 (witness). -/
theorem c7_deterministic_witness :
    process (upstreamOf "RIFFdata") audioAll oggStub descOk promptHi
      = process (upstreamOf "RIFFdata") audioAll oggStub descOk promptHi :=
  c7_deterministic (upstreamOf "RIFFdata") audioAll oggStub descOk promptHi descOk promptHi
    rfl rfl

/-- Claim C8 (counterexample): with an announce stub that always fails
and a retry budget of 2, the loop stops unannounced after exactly two
attempts, so the loop does not retry indefinitely until success. -/
theorem c8_announce_counterexample :
    announce (fun _ _ => false) ["u"] 2
      = ⟨false, 0, 2, 2⟩ := rfl

/-- Claim C8 (amended): the announce loop is bounded: across all engine
URLs it performs attempts plus leftover budget exactly equal to the
initial engine_announce_retries budget, hence never more attempts than
the budget, sleeping once after each failed attempt. -/
theorem c8_announce_bounded (svc : String → Nat → Bool) (urls : List String)
    (budget : Nat) :
    (announce svc urls budget).attempts + (announce svc urls budget).retriesLeft = budget
    ∧ (announce svc urls budget).attempts ≤ budget := by
  have hwhile : ∀ (url : String) (fuel a s : Nat),
      (announceWhile svc url fuel a s).attempts
        + (announceWhile svc url fuel a s).retriesLeft = a + fuel := by
    intro url fuel
    induction fuel with
    | zero => intro a s; simp [announceWhile]
    | succ n ih =>
      intro a s
      by_cases hs : svc url a
      · simp [announceWhile, hs]; omega
      · simp [announceWhile, hs, ih]; omega
  have hall : ∀ (us : List String) (st : AnnounceResult),
      (announceAll svc us st).attempts + (announceAll svc us st).retriesLeft
        = st.attempts + st.retriesLeft := by
    intro us
    induction us with
    | nil => intro st; simp [announceAll]
    | cons u rest ih =>
      intro st
      rw [announceAll, ih, hwhile]
  have h := hall urls ⟨false, budget, 0, 0⟩
  constructor
  · simpa [announce] using h
  · have h2 : (announce svc urls budget).attempts + (announce svc urls budget).retriesLeft
        = budget := by simpa [announce] using h
    omega

/-- Claim C9: when the response body parses as a JSON string containing
the substring error, or as a JSON array containing the element error,
the membership test succeeds but the subscript raises `TypeError`, so
`process` fails with the uncaught TypeError and not with an
UpstreamError message. -/
theorem c9_nonobject_typeerror {α : Type} (upstream : Json → Json → Json → List Nat)
    (audioFromFile : List Nat → Option α) (exportOgg : α → List Nat)
    (d p : List Nat) (dc pc rc : List Char) (jd tok url payload : Json)
    (hdec : decodeUtf8 d = some dc)
    (hparse : jsonParseChars dc = some jd)
    (htok : pyIndex jd "api_token" = Except.ok tok)
    (hurl : pyIndex jd "api_url" = Except.ok url)
    (hpdec : decodeUtf8 p = some pc)
    (hpay : jsonParseChars (interpChars pc) = some payload)
    (hrdec : decodeUtf8 (upstream url tok payload) = some rc)
    (hshape : (∃ s, jsonParseChars rc = some (Json.str s)
        ∧ containsSub s.data ('e' :: 'r' :: 'r' :: 'o' :: 'r' :: []) = true)
      ∨ (∃ xs, jsonParseChars rc = some (Json.arr xs) ∧ Json.str "error" ∈ xs)) :
    process upstream audioFromFile exportOgg d p
      = (Except.error ProcError.uncaughtTypeError, [⟨url, tok, payload⟩]) := by
  have hchk : checkUpstreamJson (upstream url tok payload)
      = some ProcError.uncaughtTypeError := by
    rcases hshape with ⟨s, hj, hc⟩ | ⟨xs, hj, hmem⟩
    · have : pyContains (Json.str s) "error" = Except.ok true := by
        simp [pyContains]
        convert hc using 2
      simp [checkUpstreamJson, hrdec, hj, this, pyIndex]
    · have hany : xs.any (fun x => match x with
          | Json.str s => s == "error"
          | _ => false) = true := by
        rw [List.any_eq_true]
        exact ⟨Json.str "error", hmem, by simp⟩
      have : pyContains (Json.arr xs) "error" = Except.ok true := by
        simp [pyContains, hany]
      simp [checkUpstreamJson, hrdec, hj, this, pyIndex]
  simp only [process, hdec, hparse, htok, hurl, hpdec, hpay]
  simp [hchk]

/-- Claim C9 (witness): upstream returning the JSON string literal
containing the word error. -/
theorem c9_nonobject_typeerror_witness :
    process (upstreamOf "\"an error occurred\"") audioNone oggStub descOk promptHi
      = (Except.error ProcError.uncaughtTypeError,
         [⟨Json.str "u", Json.str "t", Json.obj [("inputs", Json.str "hi")]⟩]) :=
  c9_nonobject_typeerror (upstreamOf "\"an error occurred\"") audioNone oggStub
    descOk promptHi _ ['h', 'i'] _
    (Json.obj [("api_token", Json.str "t"), ("api_url", Json.str "u")])
    (Json.str "t") (Json.str "u") (Json.obj [("inputs", Json.str "hi")])
    rfl rfl rfl rfl rfl rfl rfl
    (Or.inl ⟨"an error occurred", rfl, rfl⟩)

/-- Claim C10: a descriptor that is not valid UTF-8 fails with the same
InvalidDescriptor outcome as malformed JSON (the decode error is caught
by the same ValueError handler), before any request is issued. -/
theorem c10_invalid_utf8_descriptor {α : Type} (upstream : Json → Json → Json → List Nat)
    (audioFromFile : List Nat → Option α) (exportOgg : α → List Nat)
    (d p : List Nat) (h : decodeUtf8 d = none) :
    process upstream audioFromFile exportOgg d p
      = (Except.error ProcError.invalidDescriptor, []) := by
  simp [process, h]

/-- Claim C10 (witness): the lone byte 255 is not valid UTF-8. -/
theorem c10_invalid_utf8_descriptor_witness :
    decodeUtf8 [255] = none
    ∧ process (upstreamOf "x") audioNone oggStub [255] promptHi
      = (Except.error ProcError.invalidDescriptor, []) :=
  ⟨rfl, c10_invalid_utf8_descriptor (upstreamOf "x") audioNone oggStub [255] promptHi rfl⟩
